import Mathlib

/-!
Verification development for the zMIDI2MXL automation pipeline
(`src/zmidi_automation`).  Python components are shallowly embedded as
executable Lean functions:

* `ui_automation/prompt_detector.py` — prompt classification and the
  accept/reject decision (`PromptDetector._analyze_text_for_prompt`,
  `PromptDetector._determine_action`);
* `sync/sync_manager.py` — mailbox status parsing
  (`SyncStatus.from_markdown`) and the atomic file write
  (`SyncManager._write_file`);
* `core/state_manager.py` — checkpoint save/load round trip and its
  non-atomic failure behaviour (`StateManager.save/load/_atomic_write`);
* `core/pipeline.py` — tasks, pipeline state, completion keys, and the
  `Pipeline.execute` loop;
* `core/pipeline_enhanced.py` — the retrying processor and the enhanced
  execute loop;
* `core/orchestrator.py` — the resume filter;
* `utils/retry.py` — `TaskRetryManager` attempt counting.

The Python `re` patterns used by the detector and parser fall in a small
fragment (literal runs, `.*`, `\s*`, `$`); that fragment is given an
executable semantics below (`matchHere` / `rxSearch`), with `.` not
matching a newline, exactly as in Python's default mode.
-/

namespace ZMidi

/-- Tokens of the regex fragment actually used by the Python sources:
a literal run of characters, `.*` (any run without a newline),
`\s*` (a run of whitespace), and the end anchor `$`. -/
inductive Tok : Type
| lit (cs : List Char) : Tok
| dotStar : Tok
| wsStar : Tok
| lineEnd : Tok
deriving DecidableEq

/-- Literal-run token built from a string. -/
def tlit (s : String) : Tok := Tok.lit s.data

/-- Python `\s` on the characters that occur here (ASCII whitespace). -/
def pyWs (c : Char) : Bool :=
  c = ' ' || c = '\t' || c = '\n' || c = '\r' || c = '\x0b' || c = '\x0c'

/-- One step of matching a token list against the beginning of `s`.
`.*` may consume any character except a newline; `$` accepts the end of
the subject or a final newline, as Python's `$` does without `re.M`.
The `fuel` argument only forces structural recursion: every recursive
call strictly decreases `ts.length + s.length`, so the initial fuel
chosen by `matchHere` is never exhausted. -/
def matchHereAux : Nat → List Tok → List Char → Bool
| 0, _, _ => false
| _ + 1, [], _ => true
| k + 1, Tok.lit l :: ts, s =>
    l.isPrefixOf s && matchHereAux k ts (s.drop l.length)
| k + 1, Tok.dotStar :: ts, s =>
    matchHereAux k ts s ||
      (match s with
       | [] => false
       | c :: rest => decide (c ≠ '\n') && matchHereAux k (Tok.dotStar :: ts) rest)
| k + 1, Tok.wsStar :: ts, s =>
    matchHereAux k ts s ||
      (match s with
       | [] => false
       | c :: rest => pyWs c && matchHereAux k (Tok.wsStar :: ts) rest)
| k + 1, Tok.lineEnd :: ts, s =>
    (decide (s = []) || decide (s = ['\n'])) && matchHereAux k ts s

/-- `re.match` semantics for the fragment: match anchored at the start
of `s` (the match need not reach the end of `s`). -/
def matchHere (ts : List Tok) (s : List Char) : Bool :=
  matchHereAux (ts.length + s.length + 1) ts s

/-- `re.search` semantics for the fragment: match at any position. -/
def rxSearch (ts : List Tok) : List Char → Bool
| [] => matchHere ts []
| c :: rest => matchHere ts (c :: rest) || rxSearch ts rest

/-- Substring test, used for Python's `x in s` on strings. -/
def hasSubstr (s sub : String) : Bool := rxSearch [tlit sub] s.data

/-- The apostrophe character, used inside some pattern literals. -/
def apos : String := String.singleton (Char.ofNat 39)

/-! ## PromptDetector (`ui_automation/prompt_detector.py`) -/

/-- `PromptDetector.danger_patterns` (lines 110-116), each pattern
translated to the fragment; they are applied with `re.match`
(anchored at the start of the path). -/
def danger_patterns : List (List Tok) :=
  [ [Tok.dotStar, tlit ".zig"]
  , [tlit "src/", Tok.dotStar]
  , [Tok.dotStar, tlit ".py"]
  , [Tok.dotStar, tlit ".js"]
  , [Tok.dotStar, tlit ".ts"] ]

/-- `PromptDetector.safe_patterns` (lines 100-107), applied with
`re.match`. -/
def safe_patterns : List (List Tok) :=
  [ [tlit "SYNC_STATUS.md"]
  , [tlit "analysis_results/", Tok.dotStar, tlit ".md"]
  , [Tok.dotStar, tlit "simplification", Tok.dotStar, tlit ".md"]
  , [Tok.dotStar, tlit "documentation", Tok.dotStar, tlit ".md"]
  , [tlit "ANALYSIS_", Tok.dotStar, tlit ".md"]
  , [Tok.dotStar, tlit ".md", Tok.lineEnd] ]

/-- Does the extracted path match any danger pattern? -/
def dangerMatches (p : String) : Bool :=
  danger_patterns.any (fun pat => matchHere pat p.data)

/-- Does the extracted path match any safe pattern? -/
def safeMatches (p : String) : Bool :=
  safe_patterns.any (fun pat => matchHere pat p.data)

/-- `PromptDetector._determine_action` (lines 325-350): the decision on
a detected prompt, as a function of the extracted file path (`none`
when no path was extracted).  Danger patterns are checked first and
return `"reject"` immediately; only then are safe patterns and the
markdown fallback consulted. -/
def determine_action (file_path : Option String) : String :=
  match file_path with
  | none => "unknown"
  | some fp =>
    if dangerMatches fp then "reject"
    else if safeMatches fp then "accept"
    else if fp.endsWith ".md" && hasSubstr fp "analysis_results" then "accept"
    else "unknown"

/-- Classification result of `_analyze_text_for_prompt`: the
`prompt_type` field of the returned `PromptInfo` (the extracted path,
raw text, confidence and timestamp do not affect whether a prompt is
reported, and are omitted). -/
inductive PromptType : Type
| file_creation
| modification
| error
deriving DecidableEq

/-- `PromptDetector.prompt_patterns` (lines 75-97), in dictionary
insertion order.  These are searched with `re.search` and no flags
against the *lowercased* capture text, so patterns containing an
upper-case letter cannot match; they are nevertheless embedded as
written. -/
def prompt_patterns : List (PromptType × List (List Tok)) :=
  [ (PromptType.file_creation,
      [ [tlit "Do you want to create", Tok.dotStar, tlit "?"]
      , [tlit "Would you like to create", Tok.dotStar, tlit "?"]
      , [tlit "Create new file", Tok.dotStar, tlit "?"]
      , [tlit ("I" ++ apos ++ "ll create"), Tok.dotStar, tlit "file"]
      , [tlit "Creating", Tok.dotStar, tlit ".md"]
      , [tlit "Save", Tok.dotStar, tlit "analysis", Tok.dotStar, tlit "to"]
      , [tlit "write", Tok.dotStar, tlit "file", Tok.dotStar, tlit "at"] ])
  , (PromptType.modification,
      [ [tlit "Do you want to make this edit", Tok.dotStar, tlit "?"]
      , [tlit "Would you like to modify", Tok.dotStar, tlit "?"]
      , [tlit "Update", Tok.dotStar, tlit "file", Tok.dotStar, tlit "?"]
      , [tlit "Edit", Tok.dotStar, tlit "existing"]
      , [tlit "Edit file"] ])
  , (PromptType.error,
      [ [tlit "Error", Tok.dotStar, tlit "file"]
      , [tlit "Permission denied"]
      , [tlit "Cannot create"] ]) ]

/-- Button patterns (lines 231-239), searched with `re.IGNORECASE`
against the original text, embedded with both pattern and subject
lowercased. -/
def button_patterns : List (List Tok) :=
  [ [tlit "1.", Tok.wsStar, tlit "yes"]
  , [tlit "2.", Tok.wsStar, tlit "yes", Tok.dotStar,
      tlit ("don" ++ apos ++ "t ask again")]
  , [tlit "3.", Tok.wsStar, tlit "no", Tok.dotStar, tlit "tell claude"]
  , [tlit "[1]", Tok.dotStar, tlit "accept"]
  , [tlit "[2]", Tok.dotStar, tlit "reject"]
  , [tlit "press", Tok.dotStar, tlit "to", Tok.dotStar, tlit "accept"]
  , [tlit "y/n"] ]

/-- First prompt type whose pattern list has a match in `s`. -/
def findPromptType : List (PromptType × List (List Tok)) → List Char →
    Option PromptType
| [], _ => none
| (ty, pats) :: rest, s =>
  if pats.any (fun pat => rxSearch pat s) then some ty
  else findPromptType rest s

/-- `PromptDetector._analyze_text_for_prompt` (lines 204-254), reduced
to its decision: which `prompt_type` (if any) is reported for the
captured text.  The first loop searches the prompt patterns against the
lowercased text and returns at the first match; only if none matched
are the button patterns searched (case-insensitively), any single match
reporting a `file_creation` prompt. -/
def analyze_text_for_prompt (text : String) : Option PromptType :=
  let low : List Char := text.data.map Char.toLower
  match findPromptType prompt_patterns low with
  | some ty => some ty
  | none =>
    if button_patterns.any (fun pat => rxSearch pat low) then
      some PromptType.file_creation
    else none

example : analyze_text_for_prompt "please write the file at results.md"
    = some PromptType.file_creation := by decide

example : analyze_text_for_prompt "1. Yes" = some PromptType.file_creation := by
  decide

example : analyze_text_for_prompt "Do you want to create foo.md?" = none := by
  decide

example : determine_action (some "src/notes.md") = "reject" := by decide

example : determine_action (some "analysis_results/foo.md") = "accept" := by
  decide

/-! ## SyncStatus parsing (`sync/sync_manager.py`) -/

/-- `[A-Za-z_]`, the character class of the status kind capture. -/
def statusTokChar (c : Char) : Bool :=
  ('A' ≤ c && c ≤ 'Z') || ('a' ≤ c && c ≤ 'z') || c = '_'

/-- Attempt of the pattern `\s*status\s*:\s*([A-Za-z_]+)` (the part of
`(?mi)^\s*status\s*:\s*([A-Za-z_]+)` after a `^` anchor) at the given
position: skip whitespace, expect `status` case-insensitively, skip
whitespace, expect `:`, skip whitespace, then capture the maximal
nonempty run of `[A-Za-z_]`.  Each subpattern boundary is between
disjoint character classes, so the greedy scan is exact. -/
def matchStatusAt (s : List Char) : Option (List Char) :=
  let s1 := s.dropWhile pyWs
  if (s1.take 6).map Char.toLower = "status".data then
    match (s1.drop 6).dropWhile pyWs with
    | ':' :: s3 =>
      let tok := (s3.dropWhile pyWs).takeWhile statusTokChar
      if tok.isEmpty then none else some tok
    | _ => none
  else none

/-- Leftmost match of the multiline pattern: the `^` anchor matches at
the start of the content and after every newline; positions are tried
left to right. -/
def findStatusTok : List Char → Bool → Option (List Char)
| [], true => matchStatusAt []
| [], false => none
| c :: rest, atLineStart =>
  if atLineStart then
    match matchStatusAt (c :: rest) with
    | some tok => some tok
    | none => findStatusTok rest (c = '\n')
  else findStatusTok rest (c = '\n')

/-- Python `str.upper()` on the ASCII strings involved. -/
def upperStr (s : String) : String := String.mk (s.data.map Char.toUpper)

/-- Python `str.startswith`. -/
def strStartsWith (s pre : String) : Bool := pre.data.isPrefixOf s.data

/-- The `status` field computed by `SyncStatus.from_markdown`
(lines 69-91): the first `[A-Za-z_]+` token of the first
`STATUS:` line, uppercased, and `"UNKNOWN"` when no such line exists.
(The optional task and metadata blocks do not influence the status
field and are not modelled.) -/
def from_markdown_status (content : String) : String :=
  match findStatusTok content.data true with
  | some tok => upperStr (String.mk tok)
  | none => "UNKNOWN"

example : from_markdown_status "STATUS:   error: something went wrong\n"
    = "ERROR" := by decide

example : from_markdown_status "Status: complete" = "COMPLETE" := by decide

example : from_markdown_status "# SYNC STATUS\n\nSTATUS: BANANA\n"
    = "BANANA" := by decide

example : from_markdown_status "hello world" = "UNKNOWN" := by decide

/-! ## The enhanced wait loop's per-status decision
(`core/pipeline_enhanced.py`, `_wait_with_status_loop`, lines 127-188) -/

/-- What one iteration of the wait loop does with the status string
returned by `wait_for_claude_response` (`none` when that call timed
out with no update). -/
inductive WaitAction : Type
| keepWaiting
| finish (result : String)
deriving DecidableEq

/-- The branch structure of `_wait_with_status_loop`'s body on one
observed status: terminal kinds end the wait, `WORKING`, `TIMEOUT` and
every other string fall through to another iteration. -/
def wait_loop_step (status : Option String) : WaitAction :=
  match status with
  | none => WaitAction.keepWaiting
  | some s =>
    if s = "EMERGENCY_STOP" then WaitAction.finish "EMERGENCY_STOP"
    else if s = "COMPLETE" || s = "PASS" then WaitAction.finish s
    else if strStartsWith s "ERROR" then WaitAction.finish "ERROR"
    else if strStartsWith s "HELP" then WaitAction.finish "HELP"
    else if s = "WORKING" then WaitAction.keepWaiting
    else if s = "TIMEOUT" then WaitAction.keepWaiting
    else WaitAction.keepWaiting

example : wait_loop_step (some "BANANA") = WaitAction.keepWaiting := by decide

/-! ## Atomic file writes (`sync/sync_manager.py` `_write_file`,
`core/state_manager.py` `_atomic_write` / `save`) -/

/-- The two files involved in one write call: the target file and the
temporary file created next to it.  `none` means the file does not
exist. -/
structure FileState : Type where
  target : Option String
  temp : Option String
deriving DecidableEq

/-- Where a write call can fail.  `atTempWrite leftover` is a failure
while writing the temporary file, which leaves `leftover` (a prefix of
the new content) in it; `atFsync` and `atRename` fail after the
temporary file holds the full new content.  A rename either fully
replaces the target or raises without touching it. -/
inductive WriteFailure : Type
| atTempWrite (leftover : String)
| atFsync
| atRename
deriving DecidableEq

/-- The shared try-block body of both writers: create and write the
temporary file, fsync it, then rename it over the target.  `none`
failure means the call succeeds.  On failure the exception carries the
file state as the failing step left it. -/
def writeAttempt (fs : FileState) (content : String) :
    Option WriteFailure → Except FileState FileState
| none => Except.ok { target := some content, temp := none }
| some (WriteFailure.atTempWrite leftover) =>
    Except.error { fs with temp := some leftover }
| some WriteFailure.atFsync => Except.error { fs with temp := some content }
| some WriteFailure.atRename => Except.error { fs with temp := some content }

/-- `SyncManager._write_file` (lines 207-232, `atomic_write=True`
branch): on any exception the handler unlinks the temporary file and
re-raises. -/
def sync_write_file (fs : FileState) (content : String)
    (f : Option WriteFailure) : Except FileState FileState :=
  match writeAttempt fs content f with
  | Except.ok fs2 => Except.ok fs2
  | Except.error fs2 => Except.error { fs2 with temp := none }

/-- `StateManager._atomic_write` (lines 84-99): the same steps but with
no exception handler, so a failure propagates with the temporary file
still present. -/
def state_atomic_write (fs : FileState) (content : String)
    (f : Option WriteFailure) : Except FileState FileState :=
  writeAttempt fs content f

/-- `StateManager.save` (lines 28-53) around `_atomic_write`: every
exception is caught and turned into a `False` return (the backup step
after a successful write does not touch the target or temporary file
and is omitted). -/
def state_save_write (fs : FileState) (content : String)
    (f : Option WriteFailure) : Bool × FileState :=
  match state_atomic_write fs content f with
  | Except.ok fs2 => (true, fs2)
  | Except.error fs2 => (false, fs2)

example :
    state_save_write ⟨some "old", none⟩ "new" (some WriteFailure.atRename)
      = (false, ⟨some "old", some "new"⟩) := by decide

/-! ## Tasks and pipeline state (`core/pipeline.py`)

Python `datetime` values are represented by their ISO strings
(`isoformat` / `fromisoformat` are mutually inverse on the values that
occur, so serialization is the identity on this representation), the
`float` timestamps by integers, and the free-form string-keyed dicts by
association lists — all of which `json.dumps` / `json.load` round-trip
exactly. -/

/-- `TaskStatus` (pipeline.py lines 18-28). -/
inductive TaskStatus : Type
| PENDING
| WAITING_FOR_READY
| NEW_TASK
| WORKING
| COMPLETE
| PASS
| ERROR
| HELP
| TIMEOUT
deriving DecidableEq

/-- `TaskStatus.value`, the serialized form of a status. -/
def TaskStatus.value : TaskStatus → String
| TaskStatus.PENDING => "PENDING"
| TaskStatus.WAITING_FOR_READY => "WAITING_FOR_READY"
| TaskStatus.NEW_TASK => "NEW_TASK"
| TaskStatus.WORKING => "WORKING"
| TaskStatus.COMPLETE => "COMPLETE"
| TaskStatus.PASS => "PASS"
| TaskStatus.ERROR => "ERROR"
| TaskStatus.HELP => "HELP"
| TaskStatus.TIMEOUT => "TIMEOUT"

/-- The enum constructor `TaskStatus(value)`: `none` models the
`ValueError` raised on an unrecognized value. -/
def taskStatusOfValue (s : String) : Option TaskStatus :=
  if s = "PENDING" then some TaskStatus.PENDING
  else if s = "WAITING_FOR_READY" then some TaskStatus.WAITING_FOR_READY
  else if s = "NEW_TASK" then some TaskStatus.NEW_TASK
  else if s = "WORKING" then some TaskStatus.WORKING
  else if s = "COMPLETE" then some TaskStatus.COMPLETE
  else if s = "PASS" then some TaskStatus.PASS
  else if s = "ERROR" then some TaskStatus.ERROR
  else if s = "HELP" then some TaskStatus.HELP
  else if s = "TIMEOUT" then some TaskStatus.TIMEOUT
  else none

/-- `Task` (pipeline.py lines 31-42). -/
structure Task : Type where
  id : String
  file_path : String
  phase : String
  output_path : String
  status : TaskStatus
  start_time : Option Int
  end_time : Option Int
  error : Option String
  metadata : List (String × String)
deriving DecidableEq

/-- The dictionary produced by `Task.to_dict` (status serialized to its
value string). -/
structure TaskDict : Type where
  id : String
  file_path : String
  phase : String
  output_path : String
  status : String
  start_time : Option Int
  end_time : Option Int
  error : Option String
  metadata : List (String × String)
deriving DecidableEq

/-- `Task.to_dict` (pipeline.py lines 50-62). -/
def Task.to_dict (t : Task) : TaskDict :=
  { id := t.id, file_path := t.file_path, phase := t.phase
  , output_path := t.output_path, status := t.status.value
  , start_time := t.start_time, end_time := t.end_time
  , error := t.error, metadata := t.metadata }

/-- `Task.from_dict` (pipeline.py lines 64-68); `none` models the
`ValueError` from an unrecognized status value. -/
def Task.from_dict (d : TaskDict) : Option Task :=
  (taskStatusOfValue d.status).map fun st =>
    { id := d.id, file_path := d.file_path, phase := d.phase
    , output_path := d.output_path, status := st
    , start_time := d.start_time, end_time := d.end_time
    , error := d.error, metadata := d.metadata }

/-- `PipelineState` (pipeline.py lines 71-82).  `start_time` and
`last_checkpoint` are `datetime` values, held here as their ISO
strings. -/
structure PipelineState : Type where
  tasks : List Task
  completed_task_ids : List String
  current_task : Option Task
  start_time : Option String
  last_checkpoint : Option String
  context_usage : Int
  messages_sent : Int
  source_file_hashes : List (String × String)
  metadata : List (String × String)
deriving DecidableEq

/-- The dictionary produced by `PipelineState.to_dict`. -/
structure StateDict : Type where
  tasks : List TaskDict
  completed_task_ids : List String
  current_task : Option TaskDict
  start_time : Option String
  last_checkpoint : Option String
  context_usage : Int
  messages_sent : Int
  source_file_hashes : List (String × String)
  metadata : List (String × String)
deriving DecidableEq

/-- `PipelineState.to_dict` (pipeline.py lines 84-96). -/
def PipelineState.to_dict (s : PipelineState) : StateDict :=
  { tasks := s.tasks.map Task.to_dict
  , completed_task_ids := s.completed_task_ids
  , current_task := s.current_task.map Task.to_dict
  , start_time := s.start_time
  , last_checkpoint := s.last_checkpoint
  , context_usage := s.context_usage
  , messages_sent := s.messages_sent
  , source_file_hashes := s.source_file_hashes
  , metadata := s.metadata }

/-- Deserialize a list of task dictionaries; any bad entry fails the
whole load (the exception propagates out of the list comprehension). -/
def tasksFromDicts : List TaskDict → Option (List Task)
| [] => some []
| d :: ds =>
  match Task.from_dict d, tasksFromDicts ds with
  | some t, some ts => some (t :: ts)
  | _, _ => none

/-- `PipelineState.from_dict` (pipeline.py lines 98-109). -/
def PipelineState.from_dict (d : StateDict) : Option PipelineState :=
  match tasksFromDicts d.tasks with
  | none => none
  | some ts =>
    match d.current_task with
    | none => some
        { tasks := ts, completed_task_ids := d.completed_task_ids
        , current_task := none, start_time := d.start_time
        , last_checkpoint := d.last_checkpoint
        , context_usage := d.context_usage
        , messages_sent := d.messages_sent
        , source_file_hashes := d.source_file_hashes
        , metadata := d.metadata }
    | some cd =>
      (Task.from_dict cd).map fun ct =>
        { tasks := ts, completed_task_ids := d.completed_task_ids
        , current_task := some ct, start_time := d.start_time
        , last_checkpoint := d.last_checkpoint
        , context_usage := d.context_usage
        , messages_sent := d.messages_sent
        , source_file_hashes := d.source_file_hashes
        , metadata := d.metadata }

/-! ## StateManager save/load (`core/state_manager.py`) -/

/-- The `_metadata` envelope added by `StateManager.save`
(lines 35-40). -/
structure MetaEnvelope : Type where
  version : String
  saved_at : String
  tasks_completed : Nat
  tasks_total : Nat
deriving DecidableEq

/-- The JSON object written to the checkpoint file: the serialized
state plus the `_metadata` envelope. -/
structure SavedFile : Type where
  dict : StateDict
  envelope : MetaEnvelope
deriving DecidableEq

namespace StateManager

/-- `StateManager.save` (lines 28-53): serialize the state and attach
the `_metadata` envelope (`now` is `datetime.now().isoformat()`). -/
def save (now : String) (s : PipelineState) : SavedFile :=
  { dict := s.to_dict
  , envelope :=
      { version := "2.0.0", saved_at := now
      , tasks_completed := s.completed_task_ids.length
      , tasks_total := s.tasks.length } }

/-- `StateManager.load` (lines 55-82) on an existing, well-formed
checkpoint file: pop the `_metadata` envelope, then rebuild the state
with `PipelineState.from_dict`. -/
def load (f : SavedFile) : Option PipelineState :=
  PipelineState.from_dict f.dict

end StateManager

/-! ## Completion keys and the resume filters
(`core/pipeline.py` `_get_completion_key` / `load_tasks`,
`core/orchestrator.py` `resume`) -/

/-- `Pipeline._get_completion_key` (pipeline.py lines 465-472),
parameterized by the file system (`readFile p` is the content of `p`,
`none` when unreadable) and by the content-hash function `md5h`
(standing for the first 8 hex digits of the MD5 of the content). -/
def get_completion_key (readFile : String → Option String)
    (md5h : String → String) (t : Task) : String :=
  match readFile t.file_path with
  | some content => t.id ++ ":" ++ md5h content
  | none => t.id

/-- The membership filter of `Pipeline.load_tasks` (pipeline.py
lines 458-461): keep exactly the tasks whose *current* completion key
is not recorded in `completed_task_ids`. -/
def load_tasks_filter (readFile : String → Option String)
    (md5h : String → String) (completed : List String)
    (tasks : List Task) : List Task :=
  tasks.filter fun t =>
    !(completed.contains (get_completion_key readFile md5h t))

/-- The remaining-task computation of `Orchestrator.resume`
(orchestrator.py lines 432-434): it filters on the bare task id, not on
a completion key. -/
def resume_remaining (completed : List String) (tasks : List Task) :
    List Task :=
  tasks.filter fun t => !(completed.contains t.id)

/-! ## TaskRetryManager and the retrying processor
(`utils/retry.py` lines 133-165,
`core/pipeline_enhanced.py` `EnhancedSimplificationProcessor.process`) -/

/-- `EnhancedSimplificationProcessor.process` (pipeline_enhanced.py
lines 30-100) specialized to a task whose every attempt yields the
`ERROR` status, tracking the `TaskRetryManager` count for the task.
`count` is the manager's current `retry_counts` entry, `maxR` its
`max_retries`.  The top-level `should_retry` guard returns `ERROR`
without a further attempt once the count has reached `maxR`; otherwise
one attempt is made, `record_attempt` increments the count, and
`should_retry` decides between a recursive retry and a terminal
`ERROR`.  Returns the final count together with the returned status. -/
def process_always_error (maxR count : Nat) : Nat × TaskStatus :=
  if count < maxR then
    if count + 1 < maxR then process_always_error maxR (count + 1)
    else (count + 1, TaskStatus.ERROR)
  else (count, TaskStatus.ERROR)
termination_by maxR - count

/-! ## The execute loops -/

/-- One entry of `Pipeline._log_modifications`'s `modification_log`
(pipeline.py lines 612-622); the wall-clock timestamp recorded
alongside is omitted. -/
structure ModRecord : Type where
  files : List String
  task_id : String
  phase : String
deriving DecidableEq

/-- Outcome of `processor.process` for one task: a returned status or a
raised exception. -/
inductive ProcResult : Type
| ok (st : TaskStatus)
| exn (msg : String)
deriving DecidableEq

/-- The per-task observations `Pipeline.execute` makes of its
environment: the modified-file checks before and after processing,
whether the git revert of those files succeeded, whether a processor
exists for the task, and what processing returned. -/
structure TaskOutcome : Type where
  modifiedBefore : List String
  revertBeforeOk : Bool
  hasProc : Bool
  result : ProcResult
  modifiedAfter : List String
  revertAfterOk : Bool
deriving DecidableEq

/-- The parts of the pipeline's mutable state that `Pipeline.execute`
updates per task: the completed-key list, the incident
(`modification_log`) list, the ids of tasks iterated over, and the
number of checkpoints written. -/
structure ExecState : Type where
  completed : List String
  modification_log : List ModRecord
  processed : List String
  saves : Nat
deriving DecidableEq

/-- The pre-task modification check (pipeline.py lines 495-503): log
an incident exactly when files were modified and the revert failed. -/
def preCheckLog (t : Task) (o : TaskOutcome) (s : ExecState) :
    ExecState :=
  if !o.modifiedBefore.isEmpty && !o.revertBeforeOk then
    { s with modification_log :=
        s.modification_log ++ [⟨o.modifiedBefore, t.id, "before_task"⟩] }
  else s

/-- The post-task modification check (pipeline.py lines 522-530): log
an incident exactly when files were modified and the revert failed. -/
def postCheckLog (t : Task) (o : TaskOutcome) (s : ExecState) :
    ExecState :=
  if !o.modifiedAfter.isEmpty && !o.revertAfterOk then
    { s with modification_log :=
        s.modification_log ++ [⟨o.modifiedAfter, t.id, "during_task"⟩] }
  else s

/-- The completion-key append (pipeline.py lines 533-535): exactly for
`COMPLETE`/`PASS`. -/
def completedAppend (getKey : Task → String) (t : Task) (st : TaskStatus)
    (s : ExecState) : ExecState :=
  if st = TaskStatus.COMPLETE || st = TaskStatus.PASS then
    { s with completed := s.completed ++ [getKey t] }
  else s

/-- One iteration of the `for task in tasks` body of `Pipeline.execute`
(pipeline.py lines 494-558): pre-check with revert attempt and incident
log on failure; `continue` when no processor matches; on a processing
exception the task is marked `ERROR` with no checkpoint; on a returned
status the post-check runs, a completion key is appended exactly for
`COMPLETE`/`PASS`, and a checkpoint is saved. -/
def execTask (getKey : Task → String) (t : Task) (o : TaskOutcome)
    (s : ExecState) : ExecState :=
  let s1 := preCheckLog t o s
  if !o.hasProc then { s1 with processed := s1.processed ++ [t.id] }
  else
    match o.result with
    | ProcResult.exn _ => { s1 with processed := s1.processed ++ [t.id] }
    | ProcResult.ok st =>
      let s3 := completedAppend getKey t st (postCheckLog t o s1)
      { s3 with
          saves := s3.saves + 1
          processed := s3.processed ++ [t.id] }

/-- The whole `for` loop of `Pipeline.execute`: the body never breaks
or returns early, so every task is visited. -/
def execRun (getKey : Task → String) :
    List (Task × TaskOutcome) → ExecState → ExecState
| [], s => s
| (t, o) :: rest, s => execRun getKey rest (execTask getKey t o s)

/-- Per-task observations of `EnhancedPipeline.execute`
(pipeline_enhanced.py lines 227-325): the source-integrity check at the
top of the loop, processor existence, and the processing result. -/
structure EnhOutcome : Type where
  integrityOk : Bool
  hasProc : Bool
  result : ProcResult
deriving DecidableEq

/-- State updated by `EnhancedPipeline.execute`: completed ids,
recorded terminal statuses, the emergency-stop flag, and the ids of
tasks iterated over. -/
structure EnhState : Type where
  completed : List String
  statuses : List (String × TaskStatus)
  halted : Bool
  processed : List String
deriving DecidableEq

/-- The task-processing part of one `EnhancedPipeline.execute`
iteration (after the integrity check passed): the task's terminal
status is recorded and its bare id appended to `completed_task_ids`
exactly for `COMPLETE`/`PASS`; a missing processor or a raised
exception records `ERROR`. -/
def enhStep (t : Task) (o : EnhOutcome) (s : EnhState) : EnhState :=
  if !o.hasProc then
    { s with
        statuses := s.statuses ++ [(t.id, TaskStatus.ERROR)]
        processed := s.processed ++ [t.id] }
  else
    match o.result with
    | ProcResult.exn _ =>
        { s with
            statuses := s.statuses ++ [(t.id, TaskStatus.ERROR)]
            processed := s.processed ++ [t.id] }
    | ProcResult.ok st =>
      let s2 :=
        if st = TaskStatus.COMPLETE || st = TaskStatus.PASS then
          { s with completed := s.completed ++ [t.id] }
        else s
      { s2 with
          statuses := s2.statuses ++ [(t.id, st)]
          processed := s2.processed ++ [t.id] }

/-- The `for` loop of `EnhancedPipeline.execute`: a failed integrity
check triggers the emergency stop and returns immediately; otherwise
the task is processed and the loop continues. -/
def enhRun : List (Task × EnhOutcome) → EnhState → EnhState
| [], s => s
| (t, o) :: rest, s =>
  if s.halted then s
  else if !o.integrityOk then { s with halted := true }
  else enhRun rest (enhStep t o s)


/-! ## Helper lemmas about the execute loops -/

/-- `preCheckLog` touches only the incident log. -/
theorem preCheckLog_fields (t : Task) (o : TaskOutcome) (s : ExecState) :
    (preCheckLog t o s).completed = s.completed
    ∧ (preCheckLog t o s).processed = s.processed := by
  unfold preCheckLog; split <;> exact ⟨rfl, rfl⟩

/-- `postCheckLog` touches only the incident log. -/
theorem postCheckLog_fields (t : Task) (o : TaskOutcome) (s : ExecState) :
    (postCheckLog t o s).completed = s.completed
    ∧ (postCheckLog t o s).processed = s.processed := by
  unfold postCheckLog; split <;> exact ⟨rfl, rfl⟩

/-- `completedAppend` touches only the completed-key list. -/
theorem completedAppend_fields (getKey : Task → String) (t : Task)
    (st : TaskStatus) (s : ExecState) :
    (completedAppend getKey t st s).processed = s.processed
    ∧ (completedAppend getKey t st s).modification_log
        = s.modification_log := by
  unfold completedAppend; split <;> exact ⟨rfl, rfl⟩

/-- Every branch of the `Pipeline.execute` body records the task as
visited. -/
theorem execTask_processed (getKey : Task → String) (t : Task)
    (o : TaskOutcome) (s : ExecState) :
    (execTask getKey t o s).processed = s.processed ++ [t.id] := by
  unfold execTask
  have hpre := (preCheckLog_fields t o s).2
  cases hhp : o.hasProc with
  | false => simp [hpre]
  | true =>
    cases hres : o.result with
    | exn m => simp [hpre]
    | ok st =>
      simp only [Bool.not_true, if_neg]
      have h3 := (completedAppend_fields getKey t st
        (postCheckLog t o (preCheckLog t o s))).1
      simp [h3, (postCheckLog_fields t o (preCheckLog t o s)).2, hpre]

/-- The completed-key list after one `Pipeline.execute` iteration: it
is unchanged, or extended by the task's completion key exactly when
processing returned `COMPLETE` or `PASS`. -/
theorem execTask_completed (getKey : Task → String) (t : Task)
    (o : TaskOutcome) (s : ExecState) :
    (execTask getKey t o s).completed = s.completed
    ∨ ((execTask getKey t o s).completed = s.completed ++ [getKey t]
        ∧ (o.result = ProcResult.ok TaskStatus.COMPLETE
            ∨ o.result = ProcResult.ok TaskStatus.PASS)) := by
  unfold execTask
  have hpre := (preCheckLog_fields t o s).1
  cases hhp : o.hasProc with
  | false => left; simp [hpre]
  | true =>
    cases hres : o.result with
    | exn m => left; simp [hpre]
    | ok st =>
      have hpost := (postCheckLog_fields t o (preCheckLog t o s)).1
      by_cases hst : (st = TaskStatus.COMPLETE || st = TaskStatus.PASS) = true
      · right
        refine ⟨?_, ?_⟩
        · simp [completedAppend, hst, hpost, hpre]
        · rcases Bool.or_eq_true_iff.mp hst with h | h
          · exact Or.inl (by rw [decide_eq_true_eq.mp h])
          · exact Or.inr (by rw [decide_eq_true_eq.mp h])
      · left
        simp [completedAppend, hst, hpost, hpre]

/-- One iteration never removes completed keys. -/
theorem execTask_completed_mono (getKey : Task → String) (t : Task)
    (o : TaskOutcome) (s : ExecState) :
    s.completed <+: (execTask getKey t o s).completed := by
  rcases execTask_completed getKey t o s with h | ⟨h, _⟩
  · rw [h]
  · rw [h]; exact List.prefix_append _ _

/-- Over the whole `Pipeline.execute` loop the completed-key list only
grows. -/
theorem execRun_completed_mono (getKey : Task → String) :
    ∀ (l : List (Task × TaskOutcome)) (s : ExecState),
      s.completed <+: (execRun getKey l s).completed := by
  intro l
  induction l with
  | nil => intro s; exact List.prefix_refl _
  | cons p rest ih =>
    intro s
    exact (execTask_completed_mono getKey p.1 p.2 s).trans (ih _)

/-- One `EnhancedPipeline.execute` task step never removes completed
ids. -/
theorem enhStep_completed_mono (t : Task) (o : EnhOutcome)
    (s : EnhState) : s.completed <+: (enhStep t o s).completed := by
  unfold enhStep
  rcases o with ⟨i, hp, res⟩
  cases hp with
  | false => simp
  | true =>
    cases res with
    | exn m => simp
    | ok st =>
      dsimp only
      split <;> (try split) <;> simp [List.prefix_append]

/-- Over the whole `EnhancedPipeline.execute` loop the completed-id
list only grows (also when the loop halts at an emergency stop). -/
theorem enhRun_completed_mono :
    ∀ (l : List (Task × EnhOutcome)) (s : EnhState),
      s.completed <+: (enhRun l s).completed := by
  intro l
  induction l with
  | nil => intro s; exact List.prefix_refl _
  | cons p rest ih =>
    intro s
    rcases p with ⟨t, o⟩
    show s.completed <+:
      (if s.halted then s
       else if !o.integrityOk then { s with halted := true }
       else enhRun rest (enhStep t o s)).completed
    by_cases hh : s.halted
    · simp [hh]
    · by_cases hi : o.integrityOk
      · simp [hh, hi]
        exact (enhStep_completed_mono t o s).trans (ih _)
      · simp [hh, hi]

/-- Every task in the list is visited by `Pipeline.execute`; the loop
never halts early. -/
theorem execRun_processed (getKey : Task → String) :
    ∀ (l : List (Task × TaskOutcome)) (s : ExecState),
      (execRun getKey l s).processed
        = s.processed ++ l.map (fun p => p.1.id) := by
  intro l
  induction l with
  | nil => intro s; simp [execRun]
  | cons p rest ih =>
    intro s
    rcases p with ⟨t, o⟩
    show (execRun getKey rest (execTask getKey t o s)).processed = _
    rw [ih, execTask_processed]
    simp

/-! ## Demonstration values used by concrete evaluations -/

/-- A task as `Pipeline.load_tasks` builds them. -/
def taskDemo : Task :=
  { id := "s0807-1430-demo_fn", file_path := "extracted_functions/demo_fn.txt"
  , phase := "simplification", output_path := "analysis_results/demo_fn.md"
  , status := TaskStatus.PENDING, start_time := none, end_time := none
  , error := none, metadata := [] }

/-- File system in which `taskDemo`'s source file still has the content
it had when the checkpoint was written. -/
def fsUnchanged : String → Option String := fun p =>
  if p = "extracted_functions/demo_fn.txt" then some "fn original" else none

/-- File system in which that content has been edited since the
checkpoint. -/
def fsChanged : String → Option String := fun p =>
  if p = "extracted_functions/demo_fn.txt" then some "fn edited" else none

/-- A concrete stand-in for the truncated MD5 content hash. -/
def md5Demo : String → String := fun c =>
  if c = "fn original" then "11112222" else "aaaabbbb"

/-! ## Claim theorems -/

/-- Claim C1 (code_bug): evaluation at the failing input.  The
checkpoint records `taskDemo` as complete under its completion key
`"s0807-1430-demo_fn:11112222"`.  `Pipeline.load_tasks` does test
membership with the completion key — it skips the unchanged task and
re-dispatches the changed one — but `Orchestrator.resume` filters the
saved task list with the bare task id, so it re-dispatches the task
even though its id is recorded as complete (under the key) and its
source content is unchanged: on the resume path, membership in the
completed set is not tested with a CompletionKey, contrary to the
claim. -/
theorem c1_resume_tests_bare_id_not_completion_key :
    get_completion_key fsUnchanged md5Demo taskDemo
        = "s0807-1430-demo_fn:11112222"
    ∧ load_tasks_filter fsUnchanged md5Demo
        ["s0807-1430-demo_fn:11112222"] [taskDemo] = []
    ∧ resume_remaining ["s0807-1430-demo_fn:11112222"] [taskDemo]
        = [taskDemo]
    ∧ get_completion_key fsChanged md5Demo taskDemo
        = "s0807-1430-demo_fn:aaaabbbb"
    ∧ load_tasks_filter fsChanged md5Demo
        ["s0807-1430-demo_fn:11112222"] [taskDemo] = [taskDemo] := by
  decide

/-- Claim C3: whenever the extracted file path matches one of
`danger_patterns`, `_determine_action` answers `"reject"`; the safe
patterns are only consulted afterwards, so no approve rule can override
the rejection. -/
theorem c3_danger_reject_absolute :
    ∀ p : String, dangerMatches p = true →
      determine_action (some p) = "reject" := by
  intro p h
  simp [determine_action, h]

/-- Witness for C3 at `"src/notes.md"`, a path that matches a danger
pattern (`src/.*`) and a safe pattern (`.*\.md$`) at the same time. -/
theorem c3_witness :
    dangerMatches "src/notes.md" = true
    ∧ safeMatches "src/notes.md" = true
    ∧ determine_action (some "src/notes.md") = "reject" :=
  ⟨by decide, by decide, c3_danger_reject_absolute "src/notes.md" (by decide)⟩

/-- Claim C5 (counterexample): a `StateManager.save` whose rename step
fails keeps the old target content but leaves the temporary file (with
the full new content) behind — `_atomic_write` has no cleanup handler —
so the claim's "the temporary file is removed before the error is
surfaced to the caller" is false for checkpoint writes. -/
theorem c5_counterexample_state_temp_left_behind :
    state_save_write ⟨some "old", none⟩ "new" (some WriteFailure.atRename)
        = (false, ⟨some "old", some "new"⟩)
    ∧ (state_save_write ⟨some "old", none⟩ "new"
        (some WriteFailure.atRename)).2.temp ≠ none := by
  decide

/-- Claim C5 (amended): for every write and every failure point, the
target holds exactly the new content on success and exactly its
previous content on failure (never a partial file); the mailbox writer
`SyncManager._write_file` additionally removes the temporary file
before re-raising, while `StateManager.save` preserves the old target
content but may leave its temporary file behind. -/
theorem c5_amended_atomicity :
    ∀ (fs : FileState) (content : String) (f : Option WriteFailure),
      (∀ fs2, sync_write_file fs content f = Except.ok fs2 →
        fs2.target = some content ∧ fs2.temp = none)
      ∧ (∀ fs2, sync_write_file fs content f = Except.error fs2 →
        fs2.target = fs.target ∧ fs2.temp = none)
      ∧ ((state_save_write fs content f).1 = true →
        (state_save_write fs content f).2.target = some content
          ∧ (state_save_write fs content f).2.temp = none)
      ∧ ((state_save_write fs content f).1 = false →
        (state_save_write fs content f).2.target = fs.target) := by
  intro fs content f
  rcases f with _ | f
  · refine ⟨?_, ?_, ?_, ?_⟩ <;>
      simp [sync_write_file, state_save_write, state_atomic_write,
        writeAttempt]
  · cases f <;>
      refine ⟨?_, ?_, ?_, ?_⟩ <;>
      simp [sync_write_file, state_save_write, state_atomic_write,
        writeAttempt]

/-- Witness for C5: a successful mailbox write at concrete inputs, and
a failed one whose surfaced error state has no temporary file. -/
theorem c5_witness :
    ((⟨some "new", none⟩ : FileState).target = some "new"
      ∧ (⟨some "new", none⟩ : FileState).temp = none)
    ∧ ((⟨some "old", none⟩ : FileState).target
          = (⟨some "old", none⟩ : FileState).target
      ∧ (⟨some "old", none⟩ : FileState).temp = none) :=
  ⟨(c5_amended_atomicity ⟨some "old", none⟩ "new" none).1
      ⟨some "new", none⟩ rfl,
   (c5_amended_atomicity ⟨some "old", none⟩ "new"
        (some WriteFailure.atFsync)).2.1
      ⟨some "old", none⟩ rfl⟩

/-- Claim C8: status-line parsing takes the first `[A-Za-z_]+` token
after the (case-insensitively matched, whitespace-surrounded) colon and
uppercases it: the claim's two contents parse to `ERROR` and
`COMPLETE`, and a further mixed-case, padded line parses to
`WORKING`. -/
theorem c8_status_parsing_tolerant :
    from_markdown_status "STATUS:   error: something went wrong\n"
        = "ERROR"
    ∧ from_markdown_status "Status: complete" = "COMPLETE"
    ∧ from_markdown_status "  sTaTuS  :   working on it\n" = "WORKING" := by
  decide

/-- Claim C9 (counterexample): a mailbox content whose `STATUS:` line
carries the unrecognized kind `BANANA` parses to `"BANANA"`, not to
`"UNKNOWN"`: `from_markdown` uppercases whatever first token it finds
and never compares it against the recognized set. -/
theorem c9_counterexample_unrecognized_not_unknown :
    from_markdown_status "# SYNC STATUS\n\nSTATUS: BANANA\n" = "BANANA"
    ∧ from_markdown_status "# SYNC STATUS\n\nSTATUS: BANANA\n"
        ≠ "UNKNOWN" := by
  decide

/-- Claim C9 (amended): parsing returns the first token uppercased even
for kinds outside the recognized set (`UNKNOWN` only arises when no
status line is present at all), and the enhanced wait loop keeps
waiting on any status that is none of `EMERGENCY_STOP`, `COMPLETE`,
`PASS`, `ERROR…`, `HELP…` — in particular on unrecognized kinds. -/
theorem c9_amended_unrecognized_kept_waiting :
    from_markdown_status "# SYNC STATUS\n\nSTATUS: BANANA\n" = "BANANA"
    ∧ wait_loop_step (some "BANANA") = WaitAction.keepWaiting
    ∧ from_markdown_status "nothing of interest here" = "UNKNOWN"
    ∧ ∀ s : String, s ≠ "EMERGENCY_STOP" → s ≠ "COMPLETE" → s ≠ "PASS" →
        strStartsWith s "ERROR" = false → strStartsWith s "HELP" = false →
        wait_loop_step (some s) = WaitAction.keepWaiting := by
  refine ⟨by decide, by decide, by decide, ?_⟩
  intro s h1 h2 h3 h4 h5
  simp [wait_loop_step, h1, h2, h3, h4, h5]

/-- Witness for C9 at the unrecognized kind `SHRUG`. -/
theorem c9_witness :
    wait_loop_step (some "SHRUG") = WaitAction.keepWaiting :=
  c9_amended_unrecognized_kept_waiting.2.2.2 "SHRUG"
    (by decide) (by decide) (by decide) (by decide) (by decide)

/-- Claim C10 (counterexample): the captured text
`"please write the file at results.md"` contains a question-like cue
(the `write.*file.*at` prompt pattern) but no enumerated-choice cue at
all (no `1` or `2` anywhere), yet `_analyze_text_for_prompt` reports a
`file_creation` prompt instead of returning none: detection does not
require both cues. -/
theorem c10_counterexample_single_cue_detected :
    analyze_text_for_prompt "please write the file at results.md"
        = some PromptType.file_creation
    ∧ hasSubstr "please write the file at results.md" "1" = false
    ∧ hasSubstr "please write the file at results.md" "2" = false := by
  decide

/-- Claim C10 (amended): detection fires on a single cue — a
prompt-pattern match alone, or a button-pattern match alone (such as a
lone `1. Yes` option), each yields a `PromptInfo`; only text matching
neither family of patterns yields none. -/
theorem c10_amended_single_cue_suffices :
    analyze_text_for_prompt "please write the file at results.md"
        = some PromptType.file_creation
    ∧ analyze_text_for_prompt "1. Yes" = some PromptType.file_creation
    ∧ analyze_text_for_prompt "the quick brown fox" = none := by
  decide


/-- Outcome of a task whose processing succeeded but whose post-task
hash check found a protected file modified and whose revert failed. -/
def outcomeRevertFail : TaskOutcome :=
  { modifiedBefore := [], revertBeforeOk := true, hasProc := true
  , result := ProcResult.ok TaskStatus.COMPLETE
  , modifiedAfter := ["src/midi/parser.zig"], revertAfterOk := false }

/-- Claim C2: when the post-task check finds modified protected files
and the automatic revert fails, `Pipeline.execute` appends an incident
record carrying the affected files, the task id and the phase
(`"during_task"`) to the modification log, the loop moves on to the
rest of the queue, and in fact every task of the queue is always
visited — the loop never halts. -/
theorem c2_failed_revert_logged_and_continues :
    ∀ (getKey : Task → String) (t : Task) (o : TaskOutcome)
      (rest : List (Task × TaskOutcome)) (s : ExecState) (st : TaskStatus),
      o.modifiedBefore = [] → o.hasProc = true →
      o.result = ProcResult.ok st →
      o.modifiedAfter ≠ [] → o.revertAfterOk = false →
      (execTask getKey t o s).modification_log
          = s.modification_log ++ [⟨o.modifiedAfter, t.id, "during_task"⟩]
      ∧ execRun getKey ((t, o) :: rest) s
          = execRun getKey rest (execTask getKey t o s)
      ∧ ∀ (l : List (Task × TaskOutcome)) (s2 : ExecState),
          (execRun getKey l s2).processed
            = s2.processed ++ l.map (fun p => p.1.id) := by
  intro getKey t o rest s st hmb hhp hres hma hra
  refine ⟨?_, rfl, execRun_processed getKey⟩
  have h1 : preCheckLog t o s = s := by
    unfold preCheckLog
    simp [hmb]
  have h2 : ∀ s0 : ExecState, (postCheckLog t o s0).modification_log
      = s0.modification_log ++ [⟨o.modifiedAfter, t.id, "during_task"⟩] := by
    intro s0
    unfold postCheckLog
    rcases hma2 : o.modifiedAfter with _ | ⟨a, as⟩
    · exact absurd hma2 hma
    · simp [hra]
  simp only [execTask, h1, hhp, hres, Bool.not_true, Bool.false_eq_true,
    if_false]
  rw [(completedAppend_fields getKey t st (postCheckLog t o s)).2, h2]

/-- Witness for C2 at a concrete task, file list and state. -/
theorem c2_witness :
    (execTask (fun t => t.id) taskDemo outcomeRevertFail
        ⟨[], [], [], 0⟩).modification_log
      = [⟨["src/midi/parser.zig"], "s0807-1430-demo_fn", "during_task"⟩] := by
  have h := c2_failed_revert_logged_and_continues (fun t => t.id) taskDemo
    outcomeRevertFail [] ⟨[], [], [], 0⟩ TaskStatus.COMPLETE rfl rfl rfl
    (by decide) rfl
  simpa [taskDemo, outcomeRevertFail] using h.1

/-- Unfolding lemma: while attempts remain, the always-`ERROR` process
ends with the count driven exactly to `max_retries` and status
`ERROR`. -/
theorem process_always_error_below :
    ∀ (maxR k count : Nat), maxR - count ≤ k → count < maxR →
      process_always_error maxR count = (maxR, TaskStatus.ERROR) := by
  intro maxR k
  induction k with
  | zero => intro count hk hlt; omega
  | succ k ih =>
    intro count hk hlt
    unfold process_always_error
    rw [if_pos hlt]
    by_cases h2 : count + 1 < maxR
    · rw [if_pos h2]
      exact ih (count + 1) (by omega) h2
    · rw [if_neg h2]
      have h3 : count + 1 = maxR := by omega
      rw [h3]

/-- Once the count has reached `max_retries`, a further `process` call
returns `ERROR` without touching the count: no further attempt. -/
theorem process_always_error_exhausted :
    ∀ maxR count : Nat, maxR ≤ count →
      process_always_error maxR count = (count, TaskStatus.ERROR) := by
  intro maxR count h
  unfold process_always_error
  rw [if_neg (by omega)]

/-- Claim C4: a task whose every attempt yields `ERROR` ends with the
`TaskRetryManager` count at exactly `max_retries` and status `ERROR`;
calling `process` again performs no further attempt (the count is
unchanged); and the enhanced execute loop records the terminal `ERROR`
for that task and proceeds with the remaining queue. -/
theorem c4_error_task_retry_bound :
    ∀ maxR : Nat, 0 < maxR →
      process_always_error maxR 0 = (maxR, TaskStatus.ERROR)
      ∧ process_always_error maxR maxR = (maxR, TaskStatus.ERROR)
      ∧ ∀ (t : Task) (rest : List (Task × EnhOutcome)) (s : EnhState),
          s.halted = false →
          enhRun ((t, ⟨true, true,
              ProcResult.ok (process_always_error maxR 0).2⟩) :: rest) s
            = enhRun rest { s with
                statuses := s.statuses ++ [(t.id, TaskStatus.ERROR)]
                processed := s.processed ++ [t.id] } := by
  intro maxR hpos
  have h1 := process_always_error_below maxR maxR 0 (by omega) hpos
  refine ⟨h1, process_always_error_exhausted maxR maxR le_rfl, ?_⟩
  intro t rest s hh
  have h2 : (process_always_error maxR 0).2 = TaskStatus.ERROR := by
    rw [h1]
  conv_lhs => rw [enhRun]
  simp [hh, enhStep, h2]

/-- Witness for C4 with `max_retries = 2` (the value used by
`EnhancedPipeline`). -/
theorem c4_witness :
    process_always_error 2 0 = (2, TaskStatus.ERROR)
    ∧ enhRun [(taskDemo, ⟨true, true,
          ProcResult.ok (process_always_error 2 0).2⟩)] ⟨[], [], false, []⟩
        = ⟨[], [("s0807-1430-demo_fn", TaskStatus.ERROR)], false,
            ["s0807-1430-demo_fn"]⟩ := by
  have h := c4_error_task_retry_bound 2 (by decide)
  refine ⟨h.1, ?_⟩
  have h3 := h.2.2 taskDemo [] ⟨[], [], false, []⟩ rfl
  simpa [taskDemo, enhRun] using h3

/-- The enum round trip underlying the serialization. -/
theorem taskStatus_value_roundtrip :
    ∀ st : TaskStatus, taskStatusOfValue st.value = some st := by
  intro st; cases st <;> decide

/-- `Task.from_dict` undoes `Task.to_dict`. -/
theorem task_from_dict_to_dict :
    ∀ t : Task, Task.from_dict t.to_dict = some t := by
  intro t
  simp [Task.from_dict, Task.to_dict, taskStatus_value_roundtrip]

/-- Deserializing a serialized task list restores it. -/
theorem tasksFromDicts_roundtrip :
    ∀ ts : List Task, tasksFromDicts (ts.map Task.to_dict) = some ts := by
  intro ts
  induction ts with
  | nil => rfl
  | cons t ts ih => simp [tasksFromDicts, task_from_dict_to_dict, ih]

/-- Claim C6: for every `PipelineState`, saving (serialize plus attach
the `_metadata` envelope) and loading (pop the envelope, rebuild the
state) returns exactly the original state. -/
theorem c6_save_load_roundtrip :
    ∀ (now : String) (s : PipelineState),
      StateManager.load (StateManager.save now s) = some s := by
  intro now s
  rcases s with ⟨tasks, comp, cur, stt, lc, cu, ms, sfh, md⟩
  cases cur with
  | none =>
    simp [StateManager.load, StateManager.save, PipelineState.from_dict,
      PipelineState.to_dict, tasksFromDicts_roundtrip]
  | some ct =>
    simp [StateManager.load, StateManager.save, PipelineState.from_dict,
      PipelineState.to_dict, tasksFromDicts_roundtrip,
      task_from_dict_to_dict]

/-- Claim C7: across a pipeline run the completed-id collection only
grows.  Per iteration it is unchanged or extended by the task's
completion entry exactly when processing returned `COMPLETE`/`PASS`,
and over both execute loops (`Pipeline.execute` and
`EnhancedPipeline.execute`, the latter including its emergency-stop
early return) the initial list is a prefix of the final one — nothing
is ever removed. -/
theorem c7_completed_only_grows :
    (∀ (getKey : Task → String) (t : Task) (o : TaskOutcome)
        (s : ExecState),
        (execTask getKey t o s).completed = s.completed
        ∨ ((execTask getKey t o s).completed = s.completed ++ [getKey t]
            ∧ (o.result = ProcResult.ok TaskStatus.COMPLETE
                ∨ o.result = ProcResult.ok TaskStatus.PASS)))
    ∧ (∀ (getKey : Task → String) (l : List (Task × TaskOutcome))
          (s : ExecState), s.completed <+: (execRun getKey l s).completed)
    ∧ (∀ (l : List (Task × EnhOutcome)) (s : EnhState),
          s.completed <+: (enhRun l s).completed) :=
  ⟨execTask_completed, execRun_completed_mono, enhRun_completed_mono⟩

end ZMidi
